import Mathlib

/-!
Verification of the core of BzPeri, a BlueZ GATT peripheral library.

The definitions below are shallow embeddings of the C++ sources:
strings stand for C byte strings (entries are ASCII, so character count
equals byte count where noted), machine integers are modelled as `Int`,
C `double` arithmetic is modelled over `ℚ`, and the failure behaviour of
external D-Bus calls is supplied through explicit oracles.
-/

namespace BzPeri

/-! ### BluezTypes.cpp: error taxonomy, substring mapping, retry classification -/

/-- The BluezError enumeration from BluezTypes.h. -/
inductive BluezError where
  | success
  | permissionDenied
  | notReady
  | notSupported
  | inProgress
  | failed
  | timeout
  | invalidArgs
  | alreadyExists
  | notFound
  | connectionFailed
  | unknown
deriving DecidableEq, Repr

/-- Substring containment, the semantics of std::string::find(sub) != npos. -/
def hasSub (s sub : String) : Bool :=
  s.data.tails.any fun t => sub.data.isPrefixOf t

/-- mapDBusErrorName from BluezTypes.cpp lines 53-87: first matching substring
in source order decides the mapped error. -/
def mapDBusErrorName (errorName : String) : BluezError :=
  if hasSub errorName "PermissionDenied" || hasSub errorName "AccessDenied" then .permissionDenied
  else if hasSub errorName "NotReady" then .notReady
  else if hasSub errorName "NotSupported" || hasSub errorName "NotImplemented" then .notSupported
  else if hasSub errorName "InProgress" then .inProgress
  else if hasSub errorName "Failed" then .failed
  else if hasSub errorName "InvalidArguments" || hasSub errorName "InvalidArgs" then .invalidArgs
  else if hasSub errorName "AlreadyExists" then .alreadyExists
  else if hasSub errorName "DoesNotExist" || hasSub errorName "NotFound" then .notFound
  else if hasSub errorName "Timeout" then .timeout
  else .unknown

/-- isRetryableError from BluezTypes.cpp lines 90-109. -/
def isRetryableError : BluezError → Bool
  | .inProgress => true
  | .notReady => true
  | .timeout => true
  | .failed => true
  | .permissionDenied => false
  | .notSupported => false
  | .invalidArgs => false
  | .alreadyExists => false
  | _ => false

/-! ### BluezPeripheral.cpp: the update queue -/

/-- A queue entry: (object path, interface name), as stored by bzpPushUpdateQueue. -/
abbrev QueueEntry := String × String

/-- The "path|interface" encoding produced by bzpPopUpdateQueue. -/
def encodeEntry (t : QueueEntry) : String := t.1 ++ "|" ++ t.2

/-- bzpPushUpdateQueue from BluezPeripheral.cpp lines 219-230: null checks,
then push_front (modelled as cons, so the head is the front and the list
end is the back). Returns the C result and the new queue. -/
def bzpPushUpdateQueue (pObjectPath pInterfaceName : Option String) (q : List QueueEntry) :
    Int × List QueueEntry :=
  match pObjectPath, pInterfaceName with
  | some p, some i => (1, (p, i) :: q)
  | _, _ => (0, q)

/-- bzpNofifyUpdatedDescriptor from BluezPeripheral.cpp lines 207-213 (the
misspelling is the source's): null check, then push with the fixed
interface name org.bluez.GattDescriptor1. -/
def bzpNofifyUpdatedDescriptor (pObjectPath : Option String) (q : List QueueEntry) :
    Int × List QueueEntry :=
  match pObjectPath with
  | none => (0, q)
  | some p => bzpPushUpdateQueue (some p) (some "org.bluez.GattDescriptor1") q

/-- bzpPopUpdateQueue from BluezPeripheral.cpp lines 245-279.
`bufNull` models a null pElementBuffer, `elementLen` the C int buffer size.
Result: (return code, queue afterwards, string written into the buffer).
Entries are byte strings; `String.length` stands for the C byte length. -/
def bzpPopUpdateQueue (bufNull : Bool) (elementLen : Int) (keep : Int) (q : List QueueEntry) :
    Int × List QueueEntry × Option String :=
  if bufNull || elementLen ≤ 0 then (-1, q, none)
  else
    match q.getLast? with
    | none => (0, q, none)
    | some t =>
      let result := encodeEntry t
      if (result.length : Int) + 1 > elementLen then (-1, q, none)
      else if keep == 0 then (1, q.dropLast, some result)
      else (1, q, some result)

/-! ### Claim theorems for the error classification and the queue -/

/-- C8: an error is classified retryable iff it is Timeout, InProgress,
NotReady or Failed; PermissionDenied, NotSupported, InvalidArgs and
AlreadyExists are never retried, and mapDBusErrorName maps BlueZ error
names to these classes by substring match. -/
theorem retryable_iff_four_classes :
    (∀ e : BluezError,
      isRetryableError e =
        (e == BluezError.timeout || e == BluezError.inProgress ||
         e == BluezError.notReady || e == BluezError.failed))
    ∧ mapDBusErrorName "org.bluez.Error.Timeout" = BluezError.timeout
    ∧ mapDBusErrorName "org.bluez.Error.InProgress" = BluezError.inProgress
    ∧ mapDBusErrorName "org.bluez.Error.NotReady" = BluezError.notReady
    ∧ mapDBusErrorName "org.bluez.Error.Failed" = BluezError.failed
    ∧ isRetryableError (mapDBusErrorName "org.bluez.Error.PermissionDenied") = false
    ∧ isRetryableError (mapDBusErrorName "org.bluez.Error.NotSupported") = false
    ∧ isRetryableError (mapDBusErrorName "org.bluez.Error.InvalidArgs") = false
    ∧ isRetryableError (mapDBusErrorName "org.bluez.Error.AlreadyExists") = false := by
  refine ⟨fun e => by cases e <;> rfl, ?_, ?_, ?_, ?_, ?_, ?_, ?_, ?_⟩ <;> decide

/-- C6: bzpPopUpdateQueue pops from the back with the "path|interface"
encoding; it returns -1 leaving the queue unchanged when the buffer is
null, non-positive or too small for the encoding plus terminator, returns
0 leaving the queue unchanged when the queue is empty, and returns 1 on
success, removing the back entry unless keep is nonzero. -/
theorem pop_update_queue_spec (bufNull : Bool) (elementLen keep : Int) (q : List QueueEntry) :
    (bufNull = true ∨ elementLen ≤ 0 →
      bzpPopUpdateQueue bufNull elementLen keep q = (-1, q, none))
    ∧ (bufNull = false → 0 < elementLen → q = [] →
      bzpPopUpdateQueue bufNull elementLen keep q = (0, q, none))
    ∧ (∀ t, bufNull = false → 0 < elementLen → q.getLast? = some t →
        ((encodeEntry t).length : Int) + 1 > elementLen →
      bzpPopUpdateQueue bufNull elementLen keep q = (-1, q, none))
    ∧ (∀ t, bufNull = false → 0 < elementLen → q.getLast? = some t →
        ((encodeEntry t).length : Int) + 1 ≤ elementLen →
      bzpPopUpdateQueue bufNull elementLen keep q =
        (1, if keep = 0 then q.dropLast else q, some (encodeEntry t))) := by
  refine ⟨?_, ?_, ?_, ?_⟩
  · rintro (h | h) <;> simp [bzpPopUpdateQueue, h]
  · intro h1 h2 h3
    simp [bzpPopUpdateQueue, h1, h2, h3, not_le.mpr h2]
  · intro t h1 h2 h3 h4
    simp only [bzpPopUpdateQueue, h1, h3]
    simp [not_le.mpr h2, h4]
  · intro t h1 h2 h3 h4
    simp only [bzpPopUpdateQueue, h1, h3]
    simp only [Bool.false_or, if_neg (not_le.mpr h2)]
    rw [if_neg (not_lt.mpr h4)]
    by_cases hk : keep = 0 <;> simp [hk, h2]

/-- C6 witness: concrete evaluations of the four cases of the pop theorem. -/
theorem pop_update_queue_spec_witness :
    bzpPopUpdateQueue true 64 0 [("/com/bzperi/a", "i")] = (-1, [("/com/bzperi/a", "i")], none)
    ∧ bzpPopUpdateQueue false 64 0 [] = (0, [], none)
    ∧ bzpPopUpdateQueue false 4 0 [("/com/bzperi/a", "i")] = (-1, [("/com/bzperi/a", "i")], none)
    ∧ bzpPopUpdateQueue false 64 0 [("/com/bzperi/a", "i")] = (1, [], some "/com/bzperi/a|i") :=
  ⟨(pop_update_queue_spec true 64 0 [("/com/bzperi/a", "i")]).1 (Or.inl rfl),
   (pop_update_queue_spec false 64 0 []).2.1 rfl (by decide) rfl,
   (pop_update_queue_spec false 4 0 [("/com/bzperi/a", "i")]).2.2.1 ("/com/bzperi/a", "i")
     rfl (by decide) (by decide) (by decide),
   by
     have h := (pop_update_queue_spec false 64 0 [("/com/bzperi/a", "i")]).2.2.2
       ("/com/bzperi/a", "i") rfl (by decide) (by decide) (by decide)
     simpa using h⟩

/-! ### Server.cpp / BluezPeripheral.cpp: service-name validation and derived names -/

/-- Byte-wise ASCII lower-casing, the effect of std::transform with ::tolower
in the C locale (Server.cpp lines 236-237); only A-Z change. -/
def lowerAscii (s : String) : String :=
  ⟨s.data.map fun c => if 'A' ≤ c ∧ c ≤ 'Z' then Char.ofNat (c.toNat + 32) else c⟩

/-- String prefix test, the semantics of std::string::find(p) == 0. -/
def startsWithStr (p s : String) : Bool :=
  p.data.isPrefixOf s.data

/-- The Server constructor's name check from Server.cpp line 240: the
lower-cased name must be "bzperi" or have "bzperi." as a prefix, else the
constructor throws (negation of the throw condition). -/
def serverCtorAccepts (s : String) : Bool :=
  lowerAscii s == "bzperi" || startsWithStr "bzperi." (lowerAscii s)

/-- The complete service-name validation performed by a start call:
bzpStartWithBondable (BluezPeripheral.cpp lines 540-576) rejects a null or
empty name and a name longer than 255 bytes, then the Server constructor
check runs (its exception is caught and turned into a failed start). -/
def startNameAccepted : Option String → Bool
  | none => false
  | some s => !(s == "") && decide (s.utf8ByteSize ≤ 255) && serverCtorAccepts s

/-- A lower-cased identifier-segment character per the spec grammar:
ASCII a-z, 0-9 or underscore. -/
def isIdentChar (c : Char) : Bool :=
  ('a' ≤ c && c ≤ 'z') || ('0' ≤ c && c ≤ '9') || c == '_'

/-- Recogniser for "seg(.seg)*" with non-empty identifier segments; the
flag records whether the current segment already has a character. -/
def segsOk : List Char → Bool → Bool
  | [], seen => seen
  | c :: rest, seen =>
    if c = '.' then seen && segsOk rest false
    else isIdentChar c && segsOk rest true

/-- The service-name shape stated by the spec: after lower-casing, exactly
"bzperi", or "bzperi." followed by one or more dot-separated identifier
segments. Stated from the spec's words, to be compared with the code's
validation. -/
def specValidShape (s : String) : Bool :=
  lowerAscii s == "bzperi" ||
    (startsWithStr "bzperi." (lowerAscii s) && segsOk ((lowerAscii s).data.drop 7) false)

/-- The start-time acceptance predicate as the spec states it: non-empty,
at most 255 bytes, and of the valid shape. -/
def specStartAccepts (s : String) : Bool :=
  !(s == "") && decide (s.utf8ByteSize ≤ 255) && specValidShape s

/-- C1 counterexample: the name "bzperi." (no segment after the dot) is
accepted by the code's validation although it is not of the spec's shape,
so validation does not enforce the segment grammar. -/
theorem validation_accepts_missing_segments :
    startNameAccepted (some "bzperi.") = true ∧ specStartAccepts "bzperi." = false := by
  constructor <;> decide

/-- C1 amended: a start call accepts exactly the non-empty names of at most
255 bytes whose lower-casing is "bzperi" or merely starts with "bzperi.";
the dot-separated segments after "bzperi." are not validated.  Every name
of the spec's accepted shape is accepted. -/
theorem start_name_validation_amended :
    (∀ s : String, startNameAccepted (some s) = true ↔
      s ≠ "" ∧ s.utf8ByteSize ≤ 255 ∧
        (lowerAscii s = "bzperi" ∨ startsWithStr "bzperi." (lowerAscii s) = true))
    ∧ (∀ s : String, specStartAccepts s = true → startNameAccepted (some s) = true) := by
  constructor
  · intro s
    simp [startNameAccepted, serverCtorAccepts, Bool.and_eq_true, Bool.or_eq_true,
      decide_eq_true_iff, beq_iff_eq, and_assoc]
  · intro s h
    simp only [specStartAccepts, specValidShape, Bool.and_eq_true, Bool.or_eq_true,
      beq_iff_eq, decide_eq_true_iff] at h
    obtain ⟨⟨h1, h2⟩, h3⟩ := h
    simp only [startNameAccepted, serverCtorAccepts, Bool.and_eq_true, Bool.or_eq_true,
      beq_iff_eq, decide_eq_true_iff]
    refine ⟨⟨by simpa using h1, h2⟩, ?_⟩
    rcases h3 with h3 | ⟨h3, _⟩
    · exact Or.inl h3
    · exact Or.inr h3

/-- C1 amended witness: a well-formed namespaced name is accepted. -/
theorem start_name_validation_amended_witness :
    startNameAccepted (some "bzperi.myapp") = true :=
  start_name_validation_amended.2 "bzperi.myapp" (by decide)

/-- Modelled from the spec: DBusObjectPath (DBusObjectPath.h is absent from
src/). Per spec section 3.1 and 6.1 a path is a sequence of elements joined
by slashes with a leading slash, and supports concatenation; the default
path is empty and appending an element adds "/" then the element. -/
structure DBusObjectPath where
  path : String
deriving DecidableEq, Repr

/-- Modelled from the spec: the default-constructed (empty) path. -/
def DBusObjectPath.emptyPath : DBusObjectPath := ⟨""⟩

/-- Modelled from the spec: path concatenation, operator+ on DBusObjectPath. -/
def DBusObjectPath.appendElem (p : DBusObjectPath) (elem : String) : DBusObjectPath :=
  ⟨p.path ++ "/" ++ elem⟩

/-- The dot-to-slash rewrite of Server.cpp line 268 (std::replace). -/
def replaceDotWithSlash (s : String) : String :=
  ⟨s.data.map fun c => if c = '.' then '/' else c⟩

/-- getOwnedName from Server.h (reproduced in README-PACKAGING.md line 500):
"com." prepended to the stored (lower-cased) service name. -/
def getOwnedName (s : String) : String :=
  "com." ++ lowerAscii s

/-- The root object path built by the Server constructor (Server.cpp lines
264-269): DBusObjectPath() + "com" + (service name with dots replaced). -/
def serverRootPath (s : String) : String :=
  ((DBusObjectPath.emptyPath.appendElem "com").appendElem
    (replaceDotWithSlash (lowerAscii s))).path

/-- C2: for every (lower-cased) service name accepted by validation, the
well-known bus name is "com." + S with dots preserved and the root object
path is "/com/" + S with every dot replaced by a slash. -/
theorem derived_bus_name_and_root_path (s : String)
    (haccept : startNameAccepted (some s) = true) (hlower : lowerAscii s = s) :
    getOwnedName s = "com." ++ s ∧ serverRootPath s = "/com/" ++ replaceDotWithSlash s := by
  refine ⟨?_, ?_⟩
  · rw [getOwnedName, hlower]
  · rw [serverRootPath, hlower]
    rfl

/-- C2 witness: the derived names for the accepted name "bzperi.myapp". -/
theorem derived_bus_name_and_root_path_witness :
    getOwnedName "bzperi.myapp" = "com." ++ "bzperi.myapp" ∧
    serverRootPath "bzperi.myapp" = "/com/" ++ replaceDotWithSlash "bzperi.myapp" :=
  derived_bus_name_and_root_path "bzperi.myapp" (by decide) (by decide)

/-! ### BluezPeripheral.cpp: run state, health and bzpWait -/

/-- The BZPServerRunState enumeration. -/
inductive RunState where
  | uninitialized
  | initializing
  | running
  | stopping
  | stopped
deriving DecidableEq, Repr

/-- The BZPServerHealth enumeration. -/
inductive Health where
  | ok
  | failedInit
  | failedRun
deriving DecidableEq, Repr

/-- The process state that bzpWait observes and updates: the atomics, the
server thread (joinable flag and the system_error a join would raise), and
whether the saved GLib print/printerr/log handlers have been restored. -/
structure WaitWorld where
  runState : RunState
  health : Health
  threadJoinable : Bool
  joinError : Option Nat
  threadJoined : Bool
  glibHandlersRestored : Bool
deriving DecidableEq, Repr

/-- bzpWait from BluezPeripheral.cpp lines 430-472: join the server thread
when joinable (a thrown system_error is caught and leaves the result 0),
then unconditionally restore the saved GLib output handlers.  The result is
1 exactly when no exception interrupted the join; health is never read. -/
def bzpWait (w : WaitWorld) : Int × WaitWorld :=
  let threw := w.threadJoinable && w.joinError.isSome
  let result : Int := if threw then 0 else 1
  (result,
    { w with
      threadJoined := w.threadJoined || (w.threadJoinable && !w.joinError.isSome)
      glibHandlersRestored := true })

/-- C4 counterexample: with health FailedRun and a cleanly joinable thread,
bzpWait returns success (1), so its result is not success-iff-health-Ok. -/
theorem wait_ignores_health_counterexample :
    ¬(((bzpWait
        { runState := RunState.stopped, health := Health.failedRun,
          threadJoinable := true, joinError := none,
          threadJoined := false, glibHandlersRestored := false }).1 = 1) ↔
      Health.failedRun = Health.ok) := by
  decide

/-- C4 amended: bzpWait joins the event-loop thread when it is joinable,
always restores the default stdout/stderr/log sinks, and returns success
iff joining raised no system error — independently of health, so it
returns success even when health is FailedInit or FailedRun. -/
theorem wait_joins_restores_and_ignores_health (w : WaitWorld) :
    ((bzpWait w).1 = 1 ↔ (w.threadJoinable && w.joinError.isSome) = false)
    ∧ (bzpWait w).2.glibHandlersRestored = true
    ∧ (bzpWait w).2.threadJoined = (w.threadJoined || (w.threadJoinable && !w.joinError.isSome))
    ∧ (bzpWait w).1 = (bzpWait { w with health := Health.ok }).1 := by
  refine ⟨?_, rfl, rfl, rfl⟩
  simp only [bzpWait]
  by_cases h : (w.threadJoinable && w.joinError.isSome) = true
  · simp [h]
  · simp only [Bool.not_eq_true] at h
    simp [h]

/-! ### Init.cpp configureAdapter and SampleServices.h adapter selection: environment use -/

/-- Adapter facts extracted from BlueZ discovery (BluezTypes.h AdapterInfo,
the fields adapter selection reads). -/
structure AdapterInfo where
  path : String
  address : String
  powered : Bool
deriving DecidableEq, Repr

/-- The process environment, std::getenv. -/
def EnvMap := String → Option String

/-- The preferred-adapter hint computed by configureAdapter (Init.cpp lines
660-664): the value of BLUEZ_ADAPTER, or "" when unset. -/
def configureAdapterPreferred (env : EnvMap) : String :=
  (env "BLUEZ_ADAPTER").getD ""

/-- The adapter-listing flag read by configureAdapter (Init.cpp line 662):
whether BLUEZ_LIST_ADAPTERS is set. -/
def configureAdapterListRequested (env : EnvMap) : Bool :=
  (env "BLUEZ_LIST_ADAPTERS").isSome

/-- BluezAdapter::initialize's adapter selection (SampleServices.h lines
114-148): a preferred adapter matching by path, address or path substring
wins; otherwise the first powered adapter; otherwise the first adapter. -/
def selectAdapterPath (preferredAdapter : String) (availableAdapters : List AdapterInfo) :
    String :=
  let fromPreferred :=
    if preferredAdapter ≠ "" then
      match availableAdapters.find? fun a =>
        a.path == preferredAdapter || a.address == preferredAdapter ||
          hasSub a.path preferredAdapter with
      | some a => a.path
      | none => ""
    else ""
  if fromPreferred ≠ "" then fromPreferred
  else
    match availableAdapters.find? (·.powered) with
    | some a => a.path
    | none => ((availableAdapters.head?).map (·.path)).getD ""

/-- The environment-dependent part of configureAdapter's behaviour: the
adapter it selects and whether it lists adapters. -/
def configureAdapterEnvBehaviour (env : EnvMap) (availableAdapters : List AdapterInfo) :
    String × Bool :=
  (selectAdapterPath (configureAdapterPreferred env) availableAdapters,
   configureAdapterListRequested env)

/-- C5 counterexample: two runs differing only in BLUEZ_ADAPTER select
different adapters (hci0, the first powered one, versus hci1, the match
for the hint), so the core library's behaviour depends on the process
environment. -/
theorem core_reads_environment_counterexample :
    configureAdapterEnvBehaviour (fun _ => none)
        [⟨"/org/bluez/hci0", "AA:00", true⟩, ⟨"/org/bluez/hci1", "BB:11", true⟩] ≠
      configureAdapterEnvBehaviour
        (fun k => if k == "BLUEZ_ADAPTER" then some "hci1" else none)
        [⟨"/org/bluez/hci0", "AA:00", true⟩, ⟨"/org/bluez/hci1", "BB:11", true⟩] := by
  decide

/-- C5 amended: the core's configureAdapter reads exactly the environment
variables BLUEZ_ADAPTER and BLUEZ_LIST_ADAPTERS, so two runs whose
environments agree on those two variables behave identically — but runs
differing in them need not. -/
theorem core_env_dependence_amended (env1 env2 : EnvMap) (adapters : List AdapterInfo)
    (hAdapter : env1 "BLUEZ_ADAPTER" = env2 "BLUEZ_ADAPTER")
    (hList : env1 "BLUEZ_LIST_ADAPTERS" = env2 "BLUEZ_LIST_ADAPTERS") :
    configureAdapterEnvBehaviour env1 adapters = configureAdapterEnvBehaviour env2 adapters := by
  unfold configureAdapterEnvBehaviour configureAdapterPreferred configureAdapterListRequested
  rw [hAdapter, hList]

/-- C5 amended witness: environments differing only outside the two
recognised variables behave identically. -/
theorem core_env_dependence_amended_witness :
    configureAdapterEnvBehaviour (fun _ => none) [⟨"/org/bluez/hci0", "AA:00", true⟩] =
      configureAdapterEnvBehaviour
        (fun k => if k == "BZPERI_AUTO_EXPERIMENTAL" then some "1" else none)
        [⟨"/org/bluez/hci0", "AA:00", true⟩] :=
  core_env_dependence_amended _ _ _ (by decide) (by decide)

/-! ### BluezTypes.cpp: RetryPolicy::getDelayMs -/

/-- The RetryPolicy struct from BluezTypes.h lines 144-153; the double
multiplier is modelled over ℚ. -/
structure RetryPolicy where
  maxAttempts : Int := 3
  baseDelayMs : Int := 100
  maxDelayMs : Int := 5000
  backoffMultiplier : ℚ := 2
deriving DecidableEq, Repr

/-- RetryPolicy::getDelayMs from BluezTypes.cpp lines 15-29, with the
jitter draw (uniform in [0.7, 1.3]) passed explicitly: exponential delay
capped at maxDelayMs, multiplied by the jitter, floored at 1.0, then
truncated to int (the operand is at least 1, where C truncation toward
zero coincides with the mathematical floor). -/
def RetryPolicy.getDelayMs (p : RetryPolicy) (attempt : Int) (jitter : ℚ) : Int :=
  if attempt ≤ 0 then 0
  else
    let delay0 : ℚ := (p.baseDelayMs : ℚ) * p.backoffMultiplier ^ (attempt - 1).toNat
    let delay1 : ℚ := min delay0 (p.maxDelayMs : ℚ)
    ⌊max (delay1 * jitter) 1⌋

/-- C7 counterexample: with baseDelayMs 15 the int truncation undershoots
the claimed lower bound — at attempt 1 with jitter 0.71 the delay is
10 ms, below 0.7 * min(5000, 15 * 2^0) = 10.5 ms. -/
theorem retry_delay_bounds_counterexample :
    (7/10 : ℚ) ≤ 71/100 ∧ (71/100 : ℚ) ≤ 13/10 ∧
    RetryPolicy.getDelayMs
        { maxAttempts := 3, baseDelayMs := 15, maxDelayMs := 5000, backoffMultiplier := 2 }
        1 (71/100) = 10 ∧
    ¬((7/10 : ℚ) * min ((15 : ℚ) * 2 ^ ((1 : Int) - 1).toNat) 5000 ≤ (10 : ℚ)) := by
  refine ⟨by norm_num, by norm_num, ?_, by norm_num⟩
  unfold RetryPolicy.getDelayMs
  norm_num [Int.floor_eq_iff]

/-- C7 amended: for every attempt n ≥ 1, every jitter draw in [0.7, 1.3]
and every policy with baseDelayMs, maxDelayMs and multiplier at least 1,
getDelayMs(n) is at least 1 ms, at most 1.3 * min(maxDelayMs,
baseDelayMs * multiplier^(n-1)), and exceeds 0.7 * that minimum less one
(the int truncation may undershoot the claimed lower bound by under 1 ms). -/
theorem retry_delay_bounds_amended (p : RetryPolicy) (n : Int) (j : ℚ)
    (hn : 1 ≤ n) (hj1 : 7/10 ≤ j) (hj2 : j ≤ 13/10)
    (hb : 1 ≤ p.baseDelayMs) (hM : 1 ≤ p.maxDelayMs) (hm : 1 ≤ p.backoffMultiplier) :
    1 ≤ p.getDelayMs n j ∧
    (7/10 : ℚ) * min ((p.baseDelayMs : ℚ) * p.backoffMultiplier ^ (n - 1).toNat)
        (p.maxDelayMs : ℚ) - 1 < (p.getDelayMs n j : ℚ) ∧
    (p.getDelayMs n j : ℚ) ≤
      (13/10 : ℚ) * min ((p.baseDelayMs : ℚ) * p.backoffMultiplier ^ (n - 1).toNat)
        (p.maxDelayMs : ℚ) := by
  have hb' : (1 : ℚ) ≤ (p.baseDelayMs : ℚ) := by exact_mod_cast hb
  have hM' : (1 : ℚ) ≤ (p.maxDelayMs : ℚ) := by exact_mod_cast hM
  have hpow : (1 : ℚ) ≤ p.backoffMultiplier ^ (n - 1).toNat := one_le_pow₀ hm
  have hd0 : (1 : ℚ) ≤ (p.baseDelayMs : ℚ) * p.backoffMultiplier ^ (n - 1).toNat := by
    nlinarith
  set d : ℚ :=
    min ((p.baseDelayMs : ℚ) * p.backoffMultiplier ^ (n - 1).toNat) (p.maxDelayMs : ℚ) with hd
  have hd1 : (1 : ℚ) ≤ d := le_min hd0 hM'
  have hdpos : (0 : ℚ) ≤ d := le_trans zero_le_one hd1
  have hvalue : p.getDelayMs n j = ⌊max (d * j) 1⌋ := by
    unfold RetryPolicy.getDelayMs
    rw [if_neg (by omega)]
  have hmax_le : max (d * j) 1 ≤ (13/10 : ℚ) * d := by
    refine max_le ?_ (by nlinarith)
    nlinarith
  have hmax_ge : d * j ≤ max (d * j) 1 := le_max_left _ _
  have hone_le : (1 : ℚ) ≤ max (d * j) 1 := le_max_right _ _
  refine ⟨?_, ?_, ?_⟩
  · rw [hvalue]
    exact Int.le_floor.mpr (by exact_mod_cast hone_le)
  · rw [hvalue]
    have hlt := Int.lt_floor_add_one (max (d * j) 1)
    have hge : (7/10 : ℚ) * d ≤ d * j := by nlinarith
    have := le_trans hge hmax_ge
    linarith
  · rw [hvalue]
    exact le_trans (Int.floor_le _) hmax_le

/-- C7 amended witness: the default policy at attempt 1 with jitter 0.7. -/
theorem retry_delay_bounds_amended_witness :
    1 ≤ RetryPolicy.getDelayMs {} 1 (7/10) ∧
    (7/10 : ℚ) * min ((({} : RetryPolicy).baseDelayMs : ℚ) *
        ({} : RetryPolicy).backoffMultiplier ^ ((1 : Int) - 1).toNat)
        (({} : RetryPolicy).maxDelayMs : ℚ) - 1 < (RetryPolicy.getDelayMs {} 1 (7/10) : ℚ) ∧
    (RetryPolicy.getDelayMs {} 1 (7/10) : ℚ) ≤
      (13/10 : ℚ) * min ((({} : RetryPolicy).baseDelayMs : ℚ) *
        ({} : RetryPolicy).backoffMultiplier ^ ((1 : Int) - 1).toNat)
        (({} : RetryPolicy).maxDelayMs : ℚ) :=
  retry_delay_bounds_amended {} 1 (7/10) (by norm_num) (by norm_num) (by norm_num)
    (by norm_num) (by norm_num) (by norm_num)

/-! ### Init.cpp: D-Bus object registration (registerNodeHierarchy / registerObjects) -/

/-- The registration-related globals of Init.cpp: the oracle index of the
next g_dbus_connection_register_object call, the ids currently registered
on the bus connection, the registeredObjectIds bookkeeping vector, and
whether setRetryFailure has armed the retry timer. -/
structure RegState where
  seq : Nat
  bus : List Nat
  tracked : List Nat
  retryScheduled : Bool
deriving DecidableEq, Repr

/-- A node of the introspection tree handed to registerNodeHierarchy: its
number of interfaces and its child nodes. -/
inductive DBusNode where
  | mk (ifaceCount : Nat) (children : List DBusNode)

/-- The interface loop of registerNodeHierarchy (Init.cpp lines 571-603).
`failAt` tells whether the k-th overall g_dbus_connection_register_object
call fails; a successful call yields the fresh nonzero id seq+1, recorded
on the bus and in registeredObjectIds.  On failure the code clears the
bookkeeping vector (without unregistering anything from the bus), arms the
retry, and returns early (second component false). -/
def registerIfaceList (failAt : Nat → Bool) : Nat → RegState → RegState × Bool
  | 0, st => (st, true)
  | n + 1, st =>
    if failAt st.seq then
      ({ st with seq := st.seq + 1, tracked := [], retryScheduled := true }, false)
    else
      registerIfaceList failAt n
        { st with
          seq := st.seq + 1
          bus := st.bus ++ [st.seq + 1]
          tracked := st.tracked ++ [st.seq + 1] }

mutual

/-- registerNodeHierarchy from Init.cpp lines 557-612: register this node's
interfaces; on failure return early (skipping this node's children), else
recurse into the children. -/
def registerNode (failAt : Nat → Bool) : DBusNode → RegState → RegState
  | DBusNode.mk n children, st =>
    match registerIfaceList failAt n st with
    | (st1, true) => registerNodes failAt children st1
    | (st1, false) => st1

/-- The child loop of registerNodeHierarchy (Init.cpp lines 605-611): the
loop continues with the next child even if a recursive call failed inside. -/
def registerNodes (failAt : Nat → Bool) : List DBusNode → RegState → RegState
  | [], st => st
  | c :: cs, st => registerNodes failAt cs (registerNode failAt c st)

end

/-- registerObjects from Init.cpp lines 614-640: register each object's
hierarchy in turn (introspection-XML parsing is assumed to succeed; a
parse failure never reaches the interface registrations this claim is
about). -/
def registerObjects (failAt : Nat → Bool) (objects : List DBusNode) (st : RegState) : RegState :=
  match objects with
  | [] => st
  | o :: os => registerObjects failAt os (registerNode failAt o st)

/-- C3 failing input: a root object with two interfaces where D-Bus accepts
the first registration (id 1) and rejects the second.  The code clears
registeredObjectIds and arms the retry, but id 1 stays registered on the
bus — no rollback happens, contradicting the claim that every
previously-registered id is released. -/
theorem registration_failure_leaks_bus_ids :
    registerObjects (fun k => k == 1) [DBusNode.mk 2 []] ⟨0, [], [], false⟩ =
      ⟨2, [1], [], true⟩ ∧
    (registerObjects (fun k => k == 1) [DBusNode.mk 2 []] ⟨0, [], [], false⟩).bus ≠ [] := by
  constructor <;> decide

/-! ### Init.cpp: the update dispatcher (idleFunc) -/

/-- The getInterfaceType tag of a D-Bus interface attachment
(GattCharacteristic.h line 79, GattDescriptor.h line 79, and the other
interface variants). -/
inductive IfaceKind where
  | service
  | characteristic
  | descriptor
  | generic
deriving DecidableEq, Repr

/-- An interface attached to the server tree: its object path, its D-Bus
interface name, its getInterfaceType tag, and whether an onUpdatedValue
handler is installed. -/
structure SrvInterface where
  path : String
  name : String
  kind : IfaceKind
  hasUpdateHandler : Bool
deriving DecidableEq, Repr

/-- The GATT server tree, flattened to its interface attachments. -/
structure ServerModel where
  interfaces : List SrvInterface
deriving DecidableEq, Repr

/-- Modelled from the spec: Server::findInterface delegates to
DBusObject::findInterface (DBusObject.cpp is absent from src/), which per
spec section 4.B walks the tree and returns the interface attached at the
given path under the given interface name. -/
def findInterface (sv : ServerModel) (path name : String) : Option SrvInterface :=
  sv.interfaces.find? fun i => i.path == path && i.name == name

/-- The split at the first bar performed by idleFunc (Init.cpp lines
149-158): entryString.find used with substr; none when no bar occurs. -/
def splitFirstBar : List Char → Option (List Char × List Char)
  | [] => none
  | c :: rest =>
    if c = '|' then some ([], rest)
    else (splitFirstBar rest).map fun pr => (c :: pr.1, pr.2)

/-- The kIdleFrequencyMS constant from Init.cpp line 61: the dispatcher
timer period in milliseconds. -/
def kIdleFrequencyMS : Nat := 10

/-- The kQueueEntryLen constant from Init.cpp line 142: the stack buffer
handed to bzpPopUpdateQueue. -/
def kQueueEntryLen : Int := 1024

/-- The result of one dispatcher tick: the queue afterwards, the interfaces
whose callOnUpdatedValue ran, and idleFunc's boolean result. -/
structure TickResult where
  queue : List QueueEntry
  invoked : List SrvInterface
  ret : Bool
deriving DecidableEq, Repr

/-- The body of idleFunc after its pop (Init.cpp lines 144-177), over the
pop's result triple: bail out unless the pop returned 1, split the buffer
at the first bar, look the interface up, and only when the interface's
getInterfaceType tag is GattCharacteristic (the
TRY_GET_CONST_INTERFACE_OF_TYPE cast succeeds) call its
callOnUpdatedValue.  Descriptor-tagged and unknown interfaces fall through
and return false. -/
def dispatchTick (sv : ServerModel) (pr : Int × List QueueEntry × Option String) : TickResult :=
  if pr.1 = 1 then
    match pr.2.2 with
    | some entryString =>
      match splitFirstBar entryString.data with
      | none => ⟨pr.2.1, [], false⟩
      | some (pd, nd) =>
        match findInterface sv ⟨pd⟩ ⟨nd⟩ with
        | none => ⟨pr.2.1, [], false⟩
        | some i =>
          if i.kind = IfaceKind.characteristic then ⟨pr.2.1, [i], true⟩
          else ⟨pr.2.1, [], false⟩
    | none => ⟨pr.2.1, [], false⟩
  else ⟨pr.2.1, [], false⟩

/-- idleFunc from Init.cpp lines 132-178, assembled from the Running-state
guard, the pop into the 1024-byte buffer, and the dispatch body above. -/
def idleFunc (sv : ServerModel) (rs : RunState) (q : List QueueEntry) : TickResult :=
  match rs with
  | RunState.running => dispatchTick sv (bzpPopUpdateQueue false kQueueEntryLen 0 q)
  | _ => ⟨q, [], false⟩

/-- Helper: the queue returned by a pop is the input queue or the input
queue without its back entry. -/
theorem pop_queue_eq_or_dropLast (bufNull : Bool) (elementLen keep : Int)
    (q : List QueueEntry) :
    (bzpPopUpdateQueue bufNull elementLen keep q).2.1 = q ∨
    (bzpPopUpdateQueue bufNull elementLen keep q).2.1 = q.dropLast := by
  unfold bzpPopUpdateQueue
  dsimp only
  repeat' split
  all_goals simp

/-- Helper: a pop whose back entry does not fit the buffer returns -1 and
leaves the queue unchanged. -/
theorem pop_too_small (elementLen keep : Int) (q : List QueueEntry) (t : QueueEntry)
    (hpos : 0 < elementLen) (hlast : q.getLast? = some t)
    (hbig : ((encodeEntry t).length : Int) + 1 > elementLen) :
    bzpPopUpdateQueue false elementLen keep q = (-1, q, none) := by
  simp only [bzpPopUpdateQueue, hlast]
  simp [not_le.mpr hpos, hbig]

/-- Helper: a non-keeping pop whose back entry fits the buffer succeeds and
removes the back entry. -/
theorem pop_fits (elementLen : Int) (q : List QueueEntry) (t : QueueEntry)
    (hpos : 0 < elementLen) (hlast : q.getLast? = some t)
    (hfit : ((encodeEntry t).length : Int) + 1 ≤ elementLen) :
    bzpPopUpdateQueue false elementLen 0 q = (1, q.dropLast, some (encodeEntry t)) := by
  simp only [bzpPopUpdateQueue, hlast]
  simp [not_le.mpr hpos, not_lt.mpr hfit]

/-- Helper: the dispatch body always hands back the queue component of the
pop result. -/
theorem dispatchTick_queue (sv : ServerModel) (pr : Int × List QueueEntry × Option String) :
    (dispatchTick sv pr).queue = pr.2.1 := by
  unfold dispatchTick
  split
  · split
    · split
      · rfl
      · split
        · rfl
        · split <;> rfl
    · rfl
  · rfl

/-- Helper: the dispatch body calls at most one onUpdatedValue. -/
theorem dispatchTick_invoked_le_one (sv : ServerModel)
    (pr : Int × List QueueEntry × Option String) :
    (dispatchTick sv pr).invoked.length ≤ 1 := by
  unfold dispatchTick
  split
  · split
    · split
      · simp
      · split
        · simp
        · split <;> simp
    · simp
  · simp

/-- Helper: a tick outside the Running state leaves everything alone. -/
theorem idleFunc_not_running (sv : ServerModel) (rs : RunState) (q : List QueueEntry)
    (h : rs ≠ RunState.running) : idleFunc sv rs q = ⟨q, [], false⟩ := by
  cases rs
  case running => exact absurd rfl h
  all_goals rfl

/-- C9: the dispatcher tick runs at the 10 ms cadence; when the run state
is not Running it consumes no queue entry and invokes nothing; otherwise
it pops at most one entry (the back of the queue) and invokes at most one
onUpdatedValue handler — never more than one entry per tick. -/
theorem tick_consumes_at_most_one (sv : ServerModel) (rs : RunState) (q : List QueueEntry) :
    kIdleFrequencyMS = 10
    ∧ ((idleFunc sv rs q).queue = q ∨ (idleFunc sv rs q).queue = q.dropLast)
    ∧ (idleFunc sv rs q).invoked.length ≤ 1
    ∧ (rs ≠ RunState.running → (idleFunc sv rs q).queue = q ∧ (idleFunc sv rs q).invoked = []) := by
  by_cases hrs : rs = RunState.running
  · subst hrs
    refine ⟨rfl, ?_, ?_, fun h => absurd rfl h⟩
    · have hq : (idleFunc sv RunState.running q).queue =
          (bzpPopUpdateQueue false kQueueEntryLen 0 q).2.1 :=
        dispatchTick_queue sv _
      rw [hq]
      exact pop_queue_eq_or_dropLast false kQueueEntryLen 0 q
    · exact dispatchTick_invoked_le_one sv _
  · rw [idleFunc_not_running sv rs q hrs]
    exact ⟨rfl, Or.inl rfl, by simp, fun _ => ⟨rfl, rfl⟩⟩

/-- C9 witness: a tick in the Stopping state leaves a one-entry queue
untouched and invokes nothing. -/
theorem tick_consumes_at_most_one_witness :
    (idleFunc ⟨[]⟩ RunState.stopping [("/com/bzperi/a", "i")]).queue = [("/com/bzperi/a", "i")]
    ∧ (idleFunc ⟨[]⟩ RunState.stopping [("/com/bzperi/a", "i")]).invoked = [] :=
  (tick_consumes_at_most_one ⟨[]⟩ RunState.stopping [("/com/bzperi/a", "i")]).2.2.2
    (by decide)

/-- Helper: splitting at the first bar recovers the two halves of an
encoded entry whose path half contains no bar. -/
theorem splitFirstBar_append (pd nd : List Char) (h : '|' ∉ pd) :
    splitFirstBar (pd ++ '|' :: nd) = some (pd, nd) := by
  induction pd with
  | nil => simp [splitFirstBar]
  | cons c cs ih =>
    have hc : ¬c = '|' := fun hcl => h (hcl ▸ List.mem_cons_self c cs)
    have hcs : '|' ∉ cs := fun hm => h (List.mem_cons_of_mem c hm)
    simp [splitFirstBar, hc, ih hcs]

/-- Helper: the character data of an encoded entry. -/
theorem encodeEntry_data (p n : String) :
    (encodeEntry (p, n)).data = p.data ++ '|' :: n.data := by
  simp [encodeEntry, String.data_append]

/-- C10 amended: a queued update whose interface name is
org.bluez.GattDescriptor1 and whose encoding fits the dispatcher's
1024-byte buffer is popped and discarded by the Running-state tick without
any onUpdatedValue invocation (interfaces under that name are
GattDescriptor-tagged, and the dispatcher only invokes
GattCharacteristic-tagged interfaces), even though the descriptor push API
reported success. -/
theorem descriptor_updates_dropped_amended (sv : ServerModel) (q : List QueueEntry) (p : String)
    (hbar : '|' ∉ p.data)
    (hlast : q.getLast? = some (p, "org.bluez.GattDescriptor1"))
    (hfit : ((encodeEntry (p, "org.bluez.GattDescriptor1")).length : Int) + 1 ≤ kQueueEntryLen)
    (hdesc : ∀ i ∈ sv.interfaces, i.name = "org.bluez.GattDescriptor1" →
      i.kind ≠ IfaceKind.characteristic) :
    (idleFunc sv RunState.running q).queue = q.dropLast
    ∧ (idleFunc sv RunState.running q).invoked = []
    ∧ (bzpNofifyUpdatedDescriptor (some p) q).1 = 1 := by
  have hpop := pop_fits kQueueEntryLen q (p, "org.bluez.GattDescriptor1")
    (by decide) hlast hfit
  have hidle : idleFunc sv RunState.running q =
      dispatchTick sv (bzpPopUpdateQueue false kQueueEntryLen 0 q) := rfl
  have hbody : dispatchTick sv
      (1, q.dropLast, some (encodeEntry (p, "org.bluez.GattDescriptor1"))) =
      ⟨q.dropLast, [], false⟩ := by
    unfold dispatchTick
    simp only [encodeEntry_data p "org.bluez.GattDescriptor1",
      splitFirstBar_append p.data "org.bluez.GattDescriptor1".data hbar]
    cases hfind : findInterface sv ⟨p.data⟩ ⟨"org.bluez.GattDescriptor1".data⟩ with
    | none => simp [hfind]
    | some i =>
      have hmem : i ∈ sv.interfaces := List.mem_of_find?_eq_some hfind
      have hpred := List.find?_some hfind
      rw [Bool.and_eq_true, beq_iff_eq, beq_iff_eq] at hpred
      have hkind : i.kind ≠ IfaceKind.characteristic := hdesc i hmem hpred.2
      simp [hfind, hkind]
  rw [hidle, hpop]
  exact ⟨by rw [hbody], by rw [hbody], rfl⟩

/-- C10 amended witness: a pushed descriptor update on a small concrete
server is consumed by one Running tick with no handler invocation. -/
theorem descriptor_updates_dropped_amended_witness :
    (idleFunc ⟨[⟨"/com/bzperi/t/s/d", "org.bluez.GattDescriptor1", IfaceKind.descriptor, true⟩]⟩
        RunState.running [("/com/bzperi/t/s/d", "org.bluez.GattDescriptor1")]).queue = []
    ∧ (idleFunc ⟨[⟨"/com/bzperi/t/s/d", "org.bluez.GattDescriptor1", IfaceKind.descriptor, true⟩]⟩
        RunState.running [("/com/bzperi/t/s/d", "org.bluez.GattDescriptor1")]).invoked = []
    ∧ (bzpNofifyUpdatedDescriptor (some "/com/bzperi/t/s/d")
        [("/com/bzperi/t/s/d", "org.bluez.GattDescriptor1")]).1 = 1 := by
  simpa using descriptor_updates_dropped_amended
    ⟨[⟨"/com/bzperi/t/s/d", "org.bluez.GattDescriptor1", IfaceKind.descriptor, true⟩]⟩
    [("/com/bzperi/t/s/d", "org.bluez.GattDescriptor1")] "/com/bzperi/t/s/d"
    (by decide) (by decide) (by decide) (by decide)

/-- The 998-character object path used to exhibit the dispatcher's buffer
limit: its encoded entry takes 1024 bytes, one more than the buffer can
hold with the terminator. -/
def longPathData : List Char := List.replicate 998 'a'

/-- C10 counterexample: a descriptor update entry whose encoding does not
fit the 1024-byte tick buffer is not popped at all — the Running-state
tick leaves the queue unchanged (the pop returns -1), although the push
API reported success; so not every descriptor update entry is popped and
discarded. -/
theorem descriptor_update_oversized_not_popped :
    (idleFunc ⟨[]⟩ RunState.running
        [(⟨longPathData⟩, "org.bluez.GattDescriptor1")]).queue =
      [(⟨longPathData⟩, "org.bluez.GattDescriptor1")]
    ∧ (bzpNofifyUpdatedDescriptor (some ⟨longPathData⟩) []).1 = 1 := by
  refine ⟨?_, rfl⟩
  have hlen : (encodeEntry (⟨longPathData⟩, "org.bluez.GattDescriptor1")).length = 1024 := by
    show (encodeEntry (⟨longPathData⟩, "org.bluez.GattDescriptor1")).data.length = 1024
    rw [encodeEntry_data]
    have h1 : longPathData.length = 998 := by
      rw [longPathData]
      exact List.length_replicate 998 'a'
    have h2 : "org.bluez.GattDescriptor1".data.length = 25 := by decide
    rw [List.length_append, List.length_cons, h1, h2]
  have hbig : ((encodeEntry (⟨longPathData⟩, "org.bluez.GattDescriptor1")).length : Int) + 1 >
      kQueueEntryLen := by
    rw [hlen]; decide
  have hpop := pop_too_small kQueueEntryLen 0
    [(⟨longPathData⟩, "org.bluez.GattDescriptor1")]
    (⟨longPathData⟩, "org.bluez.GattDescriptor1") (by decide) (by simp) hbig
  have hidle : idleFunc ⟨[]⟩ RunState.running
      [(⟨longPathData⟩, "org.bluez.GattDescriptor1")] =
      dispatchTick ⟨[]⟩ (bzpPopUpdateQueue false kQueueEntryLen 0
        [(⟨longPathData⟩, "org.bluez.GattDescriptor1")]) := rfl
  rw [hidle, hpop, dispatchTick_queue]

end BzPeri
